import Mathlib

/-!
Shallow embedding of the SOCKS5 codec and session state machine of
rust-ss5 (src/socket5.rs and src/tcp.rs).

Byte streams are modelled as `List Nat` (each element a byte value);
decoders take the stream and return the decoded value together with the
remaining stream.  Machine integers are `Nat` with explicit `% 256` /
`% 65536` where the Rust code truncates (`as u8`, `u16` fields).
Reads through raw pointer casts in the Rust source are native-endian;
they are modelled here for a little-endian host (the common target),
which is noted at each such place.
-/

namespace SS5

/-- Constants from socket5.rs, mod constant. -/
def SOCKET5_VERSION : Nat := 0x05

def METHOD_NO_AUTHENTICATION : Nat := 0x00

def RSV : Nat := 0x00

def CMD_CONNECT : Nat := 0x01

def CMD_BIND : Nat := 0x02

def CMD_UDP : Nat := 0x03

def ATYP_IPV4 : Nat := 0x01

def ATYP_DOMAINNAME : Nat := 0x03

def ATYP_IPV6 : Nat := 0x04

def REP_SUCESS : Nat := 0x00

def REP_SERVER_FAIL : Nat := 0x01

def REP_CONN_NO : Nat := 0x02

def REP_NETWORK_NO : Nat := 0x03

def REP_HOST_NO : Nat := 0x04

def REP_CONN_REFUSED : Nat := 0x05

def REP_TTL_EXP : Nat := 0x06

def REP_CMD_NO : Nat := 0x07

def REP_ADDRESS_NO : Nat := 0x08

def REP_NO : Nat := 0x09

/-- enum Error (socket5.rs).  The io::Error payload is opaque and dropped. -/
inductive Error where
  | IoError
  | AddressTypeNo (b : Nat)
  | AddressDomainNo
  | VersionNo (b : Nat)
  | CommandNo (b : Nat)
  deriving DecidableEq, Repr

/-- Result of running a decode step: a value, a returned Error, a Rust
panic (e.g. out-of-bounds slice index), or undefined behavior (e.g. a
read of uninitialized memory). -/
inductive Outcome (α : Type) where
  | ok (a : α)
  | err (e : Error)
  | panicked
  | undef
  deriving DecidableEq, Repr

/-- read_exact into a buffer of n bytes: succeeds, consuming exactly n
bytes, iff the stream holds at least n; a short read is an io error. -/
def readExact (n : Nat) (s : List Nat) : Outcome (List Nat) × List Nat :=
  if n ≤ s.length then (.ok (s.take n), s.drop n) else (.err .IoError, s)

/-- enum Command (socket5.rs). -/
inductive Command where
  | CONNECT
  | BIND
  | UDP
  deriving DecidableEq, Repr

/-- Command::to_u8. -/
def Command.to_u8 : Command → Nat
  | .CONNECT => CMD_CONNECT
  | .BIND => CMD_BIND
  | .UDP => CMD_UDP

/-- Command::from_u8. -/
def Command.from_u8 (u : Nat) : Except Error Command :=
  if u = CMD_CONNECT then .ok .CONNECT
  else if u = CMD_BIND then .ok .BIND
  else if u = CMD_UDP then .ok .UDP
  else .error (.CommandNo u)

/-- Command::from: reads 3 bytes [VER, CMD, RSV] and decodes head[1]. -/
def Command.fromStream (s : List Nat) : Outcome Command × List Nat :=
  match readExact 3 s with
  | (.ok head, s1) =>
      match Command.from_u8 (head.getD 1 0) with
      | .ok c => (.ok c, s1)
      | .error e => (.err e, s1)
  | (.err e, s1) => (.err e, s1)
  | (.panicked, s1) => (.panicked, s1)
  | (.undef, s1) => (.undef, s1)

/-- enum Reply (socket5.rs). -/
inductive Reply where
  | RepSuccess
  | RepServerFail
  | RepConnNo
  | RepNetworkNo
  | RepHostNo
  | RepConnRefused
  | RepTtlExp
  | RepCmdNo
  | RepAddressNo
  | RepNo
  | Other (u : Nat)
  deriving DecidableEq, Repr

/-- Reply::from_u8. -/
def Reply.from_u8 (u : Nat) : Reply :=
  if u = REP_SUCESS then .RepSuccess
  else if u = REP_SERVER_FAIL then .RepServerFail
  else if u = REP_CONN_NO then .RepConnNo
  else if u = REP_NETWORK_NO then .RepNetworkNo
  else if u = REP_HOST_NO then .RepHostNo
  else if u = REP_CONN_REFUSED then .RepConnRefused
  else if u = REP_TTL_EXP then .RepTtlExp
  else if u = REP_CMD_NO then .RepCmdNo
  else if u = REP_ADDRESS_NO then .RepAddressNo
  else if u = REP_NO then .RepNo
  else .Other u

/-- Reply::to_u8. -/
def Reply.to_u8 : Reply → Nat
  | .RepSuccess => REP_SUCESS
  | .RepServerFail => REP_SERVER_FAIL
  | .RepConnNo => REP_CONN_NO
  | .RepNetworkNo => REP_NETWORK_NO
  | .RepHostNo => REP_HOST_NO
  | .RepConnRefused => REP_CONN_REFUSED
  | .RepTtlExp => REP_TTL_EXP
  | .RepCmdNo => REP_CMD_NO
  | .RepAddressNo => REP_ADDRESS_NO
  | .RepNo => REP_NO
  | .Other u => u

/-- Error::to_reply. -/
def Error.to_reply (e : Error) : Reply :=
  Reply.from_u8
    (match e with
     | .IoError => REP_SERVER_FAIL
     | .AddressTypeNo _ => REP_ADDRESS_NO
     | .AddressDomainNo => REP_HOST_NO
     | .VersionNo _ => REP_NO
     | .CommandNo _ => REP_CMD_NO)

/-- Reply::from: reads 3 bytes and decodes reply[1]. -/
def Reply.fromStream (s : List Nat) : Outcome Reply × List Nat :=
  match readExact 3 s with
  | (.ok reply, s1) => (.ok (Reply.from_u8 (reply.getD 1 0)), s1)
  | (.err e, s1) => (.err e, s1)
  | (.panicked, s1) => (.panicked, s1)
  | (.undef, s1) => (.undef, s1)

/-- Reply::write: emits [VER, rep, RSV] (and nothing more). -/
def Reply.write (r : Reply) : List Nat :=
  [SOCKET5_VERSION, Reply.to_u8 r, RSV]

/-- struct ShakeHands. -/
structure ShakeHands where
  methods : List Nat
  deriving DecidableEq, Repr

/-- ShakeHands::from: reads [VER, NMETHODS] then NMETHODS method bytes. -/
def ShakeHands.fromStream (s : List Nat) : Outcome ShakeHands × List Nat :=
  match readExact 2 s with
  | (.ok head, s1) =>
      match readExact (head.getD 1 0) s1 with
      | (.ok methods, s2) => (.ok ⟨methods⟩, s2)
      | (.err e, s2) => (.err e, s2)
      | (.panicked, s2) => (.panicked, s2)
      | (.undef, s2) => (.undef, s2)
  | (.err e, s1) => (.err e, s1)
  | (.panicked, s1) => (.panicked, s1)
  | (.undef, s1) => (.undef, s1)

/-- std::net::Ipv4Addr: four octets. -/
structure Ipv4Addr where
  o1 : Nat
  o2 : Nat
  o3 : Nat
  o4 : Nat
  deriving DecidableEq, Repr

/-- std::net::SocketAddrV4. -/
structure SocketAddrV4 where
  ip : Ipv4Addr
  port : Nat
  deriving DecidableEq, Repr

/-- std::net::Ipv6Addr: eight 16-bit segments. -/
structure Ipv6Addr where
  s1 : Nat
  s2 : Nat
  s3 : Nat
  s4 : Nat
  s5 : Nat
  s6 : Nat
  s7 : Nat
  s8 : Nat
  deriving DecidableEq, Repr

/-- std::net::SocketAddrV6 (flowinfo and scope_id are fixed to 0 in the
source and omitted). -/
structure SocketAddrV6 where
  ip : Ipv6Addr
  port : Nat
  deriving DecidableEq, Repr

/-- std::net::SocketAddr. -/
inductive SocketAddr where
  | V4 (v : SocketAddrV4)
  | V6 (v : SocketAddrV6)
  deriving DecidableEq, Repr

/-- enum Address (socket5.rs). -/
inductive Address where
  | Addr (sa : SocketAddr)
  | DomainName (name : String) (port : Nat)
  deriving DecidableEq, Repr

/-- UTF-8 bytes of a string, as Rust str::as_bytes. -/
def strBytes (s : String) : List Nat :=
  s.toUTF8.data.toList.map (fun b => b.toNat)

/-- Big-endian two-byte encoding of a u16 value (bytes put_u16). -/
def u16be (n : Nat) : List Nat := [n % 65536 / 256, n % 256]

/-- Ipv6Addr::octets: each segment as two big-endian bytes. -/
def Ipv6Addr.octets (ip : Ipv6Addr) : List Nat :=
  u16be ip.s1 ++ u16be ip.s2 ++ u16be ip.s3 ++ u16be ip.s4 ++
  u16be ip.s5 ++ u16be ip.s6 ++ u16be ip.s7 ++ u16be ip.s8

/-- Address::from (socket5.rs lines 226-280).

IPv4 branch: the port is read through a pointer cast and then
u16::from_be, which on a little-endian host yields the big-endian
value b4*256+b5.

IPv6 branch: the 18 bytes are reinterpreted as nine native-endian u16
values with NO byte-order conversion; on a little-endian host segment i
is b(2i) + 256*b(2i+1), i.e. byte-swapped relative to the wire.

Domain branch: the Rust code allocates the name buffer with
Vec::with_capacity(domain_len + 2), which has LENGTH ZERO, so read_exact
fills a zero-length buffer and consumes nothing; the subsequent slice
domain[domain_len..] panics whenever domain_len > 0, and for
domain_len = 0 the port is read from uninitialized memory (undefined
behavior). -/
def Address.fromStream (s : List Nat) : Outcome Address × List Nat :=
  match readExact 1 s with
  | (.ok atyp, s1) =>
      let a0 := atyp.getD 0 0
      if a0 = ATYP_IPV4 then
        match readExact 6 s1 with
        | (.ok b, s2) =>
            (.ok (.Addr (.V4 ⟨⟨b.getD 0 0, b.getD 1 0, b.getD 2 0, b.getD 3 0⟩,
              b.getD 4 0 * 256 + b.getD 5 0⟩)), s2)
        | (.err e, s2) => (.err e, s2)
        | (.panicked, s2) => (.panicked, s2)
        | (.undef, s2) => (.undef, s2)
      else if a0 = ATYP_IPV6 then
        match readExact 18 s1 with
        | (.ok b, s2) =>
            (.ok (.Addr (.V6 ⟨⟨b.getD 0 0 + 256 * b.getD 1 0,
              b.getD 2 0 + 256 * b.getD 3 0,
              b.getD 4 0 + 256 * b.getD 5 0,
              b.getD 6 0 + 256 * b.getD 7 0,
              b.getD 8 0 + 256 * b.getD 9 0,
              b.getD 10 0 + 256 * b.getD 11 0,
              b.getD 12 0 + 256 * b.getD 13 0,
              b.getD 14 0 + 256 * b.getD 15 0⟩,
              b.getD 16 0 + 256 * b.getD 17 0⟩)), s2)
        | (.err e, s2) => (.err e, s2)
        | (.panicked, s2) => (.panicked, s2)
        | (.undef, s2) => (.undef, s2)
      else if a0 = ATYP_DOMAINNAME then
        match readExact 1 s1 with
        | (.ok dl, s2) =>
            let domain_len := dl.getD 0 0
            match readExact 0 s2 with
            | (.ok _domain, s3) =>
                if domain_len = 0 then (.undef, s3)
                else (.panicked, s3)
            | (.err e, s3) => (.err e, s3)
            | (.panicked, s3) => (.panicked, s3)
            | (.undef, s3) => (.undef, s3)
        | (.err e, s2) => (.err e, s2)
        | (.panicked, s2) => (.panicked, s2)
        | (.undef, s2) => (.undef, s2)
      else (.err (.AddressTypeNo a0), s1)
  | (.err e, s1) => (.err e, s1)
  | (.panicked, s1) => (.panicked, s1)
  | (.undef, s1) => (.undef, s1)

/-- Address::write (socket5.rs lines 282-315). -/
def Address.write : Address → List Nat
  | .Addr (.V4 v) =>
      ATYP_IPV4 :: [v.ip.o1 % 256, v.ip.o2 % 256, v.ip.o3 % 256, v.ip.o4 % 256]
        ++ u16be v.port
  | .Addr (.V6 v) => ATYP_IPV6 :: Ipv6Addr.octets v.ip ++ u16be v.port
  | .DomainName name port =>
      ATYP_DOMAINNAME :: (strBytes name).length % 256 :: strBytes name ++ u16be port

/-- struct Proxy. -/
structure Proxy where
  command : Command
  address : Address
  deriving DecidableEq, Repr

/-- Proxy::from: Command::from then Address::from. -/
def Proxy.fromStream (s : List Nat) : Outcome Proxy × List Nat :=
  match Command.fromStream s with
  | (.ok c, s1) =>
      match Address.fromStream s1 with
      | (.ok a, s2) => (.ok ⟨c, a⟩, s2)
      | (.err e, s2) => (.err e, s2)
      | (.panicked, s2) => (.panicked, s2)
      | (.undef, s2) => (.undef, s2)
  | (.err e, s1) => (.err e, s1)
  | (.panicked, s1) => (.panicked, s1)
  | (.undef, s1) => (.undef, s1)

/-- How TcpSocksClient::server_connect finished. -/
inductive SessionEnd where
  | ok
  | err (e : Error)
  | panicked
  | undef
  deriving DecidableEq, Repr

/-- Observable result of one session: the bytes written to the client,
whether copy_bidirectional was entered, and how the function returned. -/
structure SessionResult where
  written : List Nat
  relayed : Bool
  ending : SessionEnd
  deriving DecidableEq, Repr

/-- TcpSocksClient::server_connect (tcp.rs lines 21-34), over the input
byte stream from the client.  connectOk tells whether the upstream
TcpStream::connect succeeds (a failure is an io::Error, hence
Error::IoError); relayOk tells whether copy_bidirectional returns Ok. -/
def serverConnect (input : List Nat) (connectOk relayOk : Bool) : SessionResult :=
  match ShakeHands.fromStream input with
  | (.err e, _) => ⟨[], false, .err e⟩
  | (.panicked, _) => ⟨[], false, .panicked⟩
  | (.undef, _) => ⟨[], false, .undef⟩
  | (.ok _hands, s1) =>
      let w0 := [SOCKET5_VERSION, METHOD_NO_AUTHENTICATION]
      match Proxy.fromStream s1 with
      | (.err e, _) => ⟨w0, false, .err e⟩
      | (.panicked, _) => ⟨w0, false, .panicked⟩
      | (.undef, _) => ⟨w0, false, .undef⟩
      | (.ok proxy, _s2) =>
          if proxy.command = Command.CONNECT then
            if connectOk then
              ⟨w0 ++ Reply.write Reply.RepSuccess ++ Address.write proxy.address,
               true, if relayOk then .ok else .err .IoError⟩
            else ⟨w0, false, .err .IoError⟩
          else ⟨w0, false, .ok⟩


/-! ## Helper lemmas -/

lemma readExact_cases (n : Nat) (s : List Nat) :
    readExact n s = (.ok (s.take n), s.drop n) ∨ readExact n s = (.err .IoError, s) := by
  unfold readExact
  split
  · exact Or.inl rfl
  · exact Or.inr rfl

lemma readExact_err (n : Nat) (s : List Nat) (e : Error) (s1 : List Nat)
    (h : readExact n s = (.err e, s1)) : e = .IoError := by
  unfold readExact at h
  split at h <;> simp_all

lemma readExact_two_cons (v n : Nat) (t : List Nat) :
    readExact 2 (v :: n :: t) = (.ok [v, n], t) := by
  simp [readExact]

lemma readExact_three_cons (v c r : Nat) (t : List Nat) :
    readExact 3 (v :: c :: r :: t) = (.ok [v, c, r], t) := by
  simp [readExact]

lemma shakeHands_ver_indep (v w : Nat) (rest : List Nat) :
    (ShakeHands.fromStream (v :: rest)).1 = (ShakeHands.fromStream (w :: rest)).1 := by
  cases rest with
  | nil => rfl
  | cons n t =>
      simp only [ShakeHands.fromStream, readExact_two_cons]
      rfl

lemma command_ver_indep (v w : Nat) (rest : List Nat) :
    (Command.fromStream (v :: rest)).1 = (Command.fromStream (w :: rest)).1 := by
  match rest with
  | [] => rfl
  | [c] => rfl
  | c :: r :: t =>
      simp only [Command.fromStream, readExact_three_cons]
      rfl

lemma reply_ver_indep (v w : Nat) (rest : List Nat) :
    (Reply.fromStream (v :: rest)).1 = (Reply.fromStream (w :: rest)).1 := by
  match rest with
  | [] => rfl
  | [c] => rfl
  | c :: r :: t =>
      simp only [Reply.fromStream, readExact_three_cons]
      rfl

lemma shakeHands_no_version (s : List Nat) (b : Nat) :
    (ShakeHands.fromStream s).1 ≠ .err (.VersionNo b) := by
  unfold ShakeHands.fromStream
  rcases readExact_cases 2 s with h | h <;> rw [h] <;> dsimp only
  case inl =>
    rcases readExact_cases ((s.take 2).getD 1 0) (s.drop 2) with h2 | h2 <;>
      rw [h2] <;> simp
  case inr => simp

lemma command_from_u8_no_version (u b : Nat) :
    Command.from_u8 u ≠ .error (.VersionNo b) := by
  unfold Command.from_u8
  split_ifs <;> simp

lemma command_no_version (s : List Nat) (b : Nat) :
    (Command.fromStream s).1 ≠ .err (.VersionNo b) := by
  unfold Command.fromStream
  rcases readExact_cases 3 s with h | h <;> rw [h] <;> dsimp only
  case inl =>
    cases hc : Command.from_u8 ((s.take 3).getD 1 0) with
    | ok c => simp
    | error e =>
        have h8 := command_from_u8_no_version ((s.take 3).getD 1 0) b
        rw [hc] at h8
        simp only [ne_eq, Except.error.injEq] at h8
        simp [h8]
  case inr => simp

lemma reply_no_version (s : List Nat) (b : Nat) :
    (Reply.fromStream s).1 ≠ .err (.VersionNo b) := by
  unfold Reply.fromStream
  rcases readExact_cases 3 s with h | h <;> rw [h] <;> simp

lemma address_no_version (s : List Nat) (b : Nat) :
    (Address.fromStream s).1 ≠ .err (.VersionNo b) := by
  unfold Address.fromStream
  rcases readExact_cases 1 s with h | h <;> rw [h] <;> dsimp only
  case inr => simp
  case inl =>
    by_cases h1 : ((s.take 1).getD 0 0) = ATYP_IPV4
    · rw [if_pos h1]
      rcases readExact_cases 6 (s.drop 1) with h2 | h2 <;> rw [h2] <;> simp
    · rw [if_neg h1]
      by_cases h4 : ((s.take 1).getD 0 0) = ATYP_IPV6
      · rw [if_pos h4]
        rcases readExact_cases 18 (s.drop 1) with h2 | h2 <;> rw [h2] <;> simp
      · rw [if_neg h4]
        by_cases h3 : ((s.take 1).getD 0 0) = ATYP_DOMAINNAME
        · rw [if_pos h3]
          rcases readExact_cases 1 (s.drop 1) with h2 | h2 <;> rw [h2] <;> dsimp only
          · rcases readExact_cases 0 ((s.drop 1).drop 1) with h5 | h5 <;>
              rw [h5] <;> dsimp only
            · by_cases h6 : ((((s.drop 1).take 1)).getD 0 0) = 0
              · rw [if_pos h6]; simp
              · rw [if_neg h6]; simp
            · simp
          · simp
        · rw [if_neg h3]; simp

lemma proxy_no_version (s : List Nat) (b : Nat) :
    (Proxy.fromStream s).1 ≠ .err (.VersionNo b) := by
  unfold Proxy.fromStream
  cases hc : Command.fromStream s with
  | mk o s1 =>
      cases o with
      | ok c =>
          dsimp only
          cases ha : Address.fromStream s1 with
          | mk o2 s2 =>
              cases o2 with
              | ok a => simp
              | err e =>
                  have hv2 : e ≠ Error.VersionNo b := by
                    intro hbad
                    exact address_no_version s1 b (by rw [ha, hbad])
                  simp [hv2]
              | panicked => simp
              | undef => simp
      | err e =>
          have hv2 : e ≠ Error.VersionNo b := by
            intro hbad
            exact command_no_version s b (by rw [hc, hbad])
          simp [hv2]
      | panicked => simp
      | undef => simp

/-! ## Claims -/

/-- C1: the claim says encoding any Address with Address::write and
decoding the result with Address::from round-trips.  It fails: for the
domain-name variant the decoder reads zero name bytes (the buffer built
with Vec::with_capacity has length zero) and then panics slicing
domain[domain_len..].  Here, encoding DomainName "a" port 80 yields the
wire bytes [3, 1, 97, 0, 80], and decoding them panics with the three
bytes after the length prefix still unread. -/
theorem C1_domain_roundtrip_panics :
    Address.fromStream (Address.write (.DomainName "a" 80)) = (.panicked, [97, 0, 80]) := by
  decide

/-- C2 counterexample: for the concrete session (handshake 05 01 00,
then CONNECT to 127.0.0.1:80) whose upstream connect fails, the server
writes only the two handshake-reply bytes [5, 0]: no Reply message
(which would start [5, rep, 0]) follows, contrary to the claim that a
Reply derived from the error is written before closing. -/
theorem C2_counterexample :
    serverConnect ([5, 1, 0] ++ [5, 1, 0, 1, 127, 0, 0, 1, 0, 80]) false true
      = ⟨[5, 0], false, .err .IoError⟩
    ∧ ¬ ∃ r rest,
        (serverConnect ([5, 1, 0] ++ [5, 1, 0, 1, 127, 0, 0, 1, 0, 80]) false true).written
          = [5, 0] ++ [5, r, 0] ++ rest := by
  refine ⟨by decide, ?_⟩
  intro hex
  obtain ⟨r, rest, hw⟩ := hex
  have h2 : (serverConnect ([5, 1, 0] ++ [5, 1, 0, 1, 127, 0, 0, 1, 0, 80]) false true).written
      = [5, 0] := by decide
  rw [h2] at hw
  simp at hw

/-- C2 amended: whenever the handshake and the request parse and the
request's command is CONNECT but the upstream connect fails, the session
ends with the connect error, never enters relaying, and writes nothing
to the client beyond the two handshake-reply bytes: no error Reply is
written. -/
theorem C2_connect_failure_terminates_silently
    (input s1 s2 : List Nat) (hands : ShakeHands) (proxy : Proxy) (relayOk : Bool)
    (h1 : ShakeHands.fromStream input = (.ok hands, s1))
    (h2 : Proxy.fromStream s1 = (.ok proxy, s2))
    (h3 : proxy.command = Command.CONNECT) :
    serverConnect input false relayOk = ⟨[5, 0], false, .err .IoError⟩ := by
  unfold serverConnect
  rw [h1]
  dsimp only
  rw [h2]
  dsimp only
  rw [h3]
  simp [SOCKET5_VERSION, METHOD_NO_AUTHENTICATION]

/-- C2 witness: the amended statement applied to the concrete failing
session. -/
theorem C2_connect_failure_witness :
    serverConnect ([5, 1, 0] ++ [5, 1, 0, 1, 127, 0, 0, 1, 0, 80]) false true
      = ⟨[5, 0], false, .err .IoError⟩ :=
  C2_connect_failure_terminates_silently
    ([5, 1, 0] ++ [5, 1, 0, 1, 127, 0, 0, 1, 0, 80])
    [5, 1, 0, 1, 127, 0, 0, 1, 0, 80] [] ⟨[0]⟩
    ⟨.CONNECT, .Addr (.V4 ⟨⟨127, 0, 0, 1⟩, 80⟩)⟩ true
    (by decide) (by decide) rfl

/-- C3: for the handshake bytes 05 01 00 followed by the request bytes
05 01 00 01 7F 00 00 01 00 50 (CONNECT to 127.0.0.1:80), with the
upstream connect succeeding, the session writes exactly 05 00 as the
handshake reply and exactly 05 00 00 01 7F 00 00 01 00 50 as the connect
reply (the requested target address echoed back), and then relays. -/
theorem C3_connect_scenario :
    serverConnect ([0x05, 0x01, 0x00] ++
        [0x05, 0x01, 0x00, 0x01, 0x7F, 0x00, 0x00, 0x01, 0x00, 0x50]) true true
      = ⟨[0x05, 0x00] ++ [0x05, 0x00, 0x00, 0x01, 0x7F, 0x00, 0x00, 0x01, 0x00, 0x50],
         true, .ok⟩ := by
  decide

/-- C4: Error::to_reply maps IoError to general server failure (0x01),
AddressTypeNo to address-type-not-supported (0x08), AddressDomainNo to
host-unreachable (0x04), VersionNo to the no-acceptable-reply escape
code (0x09), and CommandNo to command-not-supported (0x07). -/
theorem C4_error_to_reply (e : Error) :
    Error.to_reply e =
      (match e with
       | .IoError => Reply.RepServerFail
       | .AddressTypeNo _ => Reply.RepAddressNo
       | .AddressDomainNo => Reply.RepHostNo
       | .VersionNo _ => Reply.RepNo
       | .CommandNo _ => Reply.RepCmdNo)
    ∧ Reply.to_u8 (Error.to_reply e) =
      (match e with
       | .IoError => 0x01
       | .AddressTypeNo _ => 0x08
       | .AddressDomainNo => 0x04
       | .VersionNo _ => 0x09
       | .CommandNo _ => 0x07) := by
  cases e <;> exact ⟨rfl, rfl⟩

/-- C5: Command::from_u8 maps 0x01 to CONNECT, 0x02 to BIND, 0x03 to
UDP, and any other byte to the error CommandNo carrying that byte; there
is no escape variant for unknown command bytes. -/
theorem C5_command_from_u8 (b : Nat) :
    Command.from_u8 b =
      if b = 0x01 then .ok .CONNECT
      else if b = 0x02 then .ok .BIND
      else if b = 0x03 then .ok .UDP
      else .error (.CommandNo b) := rfl

/-- C6: for any stream whose first byte is not a recognized ATYP value,
Address::from returns AddressTypeNo carrying that byte and consumes
exactly the one ATYP byte: the rest of the stream is returned intact. -/
theorem C6_unknown_atyp_one_byte (b : Nat) (rest : List Nat)
    (h1 : b ≠ ATYP_IPV4) (h2 : b ≠ ATYP_DOMAINNAME) (h3 : b ≠ ATYP_IPV6) :
    Address.fromStream (b :: rest) = (.err (.AddressTypeNo b), rest) := by
  have hr : readExact 1 (b :: rest) = (.ok [b], rest) := by
    simp [readExact]
  unfold Address.fromStream
  rw [hr]
  dsimp only
  have hb : [b].getD 0 0 = b := rfl
  rw [hb, if_neg h1, if_neg h3, if_neg h2]

/-- C6 witness: decoding ATYP byte 0x7F yields AddressTypeNo(0x7F) and
leaves the following bytes unread. -/
theorem C6_witness :
    Address.fromStream [0x7F, 9, 9] = (.err (.AddressTypeNo 0x7F), [9, 9]) :=
  C6_unknown_atyp_one_byte 0x7F [9, 9] (by decide) (by decide) (by decide)

/-- tcp.rs lines 29-30: the connect reply as written to the client,
Reply::write (VER, REP, RSV) followed by Address::write (the address
supplied by the caller). -/
def replyWithAddress (r : Reply) (a : Address) : List Nat :=
  Reply.write r ++ Address.write a

/-- C7: the reply encoding writes, in order, the version byte, the
status byte, the reserved byte, and then the address field the caller
supplied; the address field itself begins with the ATYP tag of the
supplied address. -/
theorem C7_reply_write_layout (r : Reply) (a : Address) :
    replyWithAddress r a = SOCKET5_VERSION :: Reply.to_u8 r :: RSV :: Address.write a
    ∧ (Address.write a).headD 0 =
        (match a with
         | .Addr (.V4 _) => ATYP_IPV4
         | .Addr (.V6 _) => ATYP_IPV6
         | .DomainName _ _ => ATYP_DOMAINNAME) := by
  refine ⟨rfl, ?_⟩
  cases a with
  | Addr sa => cases sa <;> rfl
  | DomainName n p => rfl

/-- C8: whenever the handshake and the request parse and the request's
command is BIND or UDP-ASSOCIATE, the session writes nothing beyond the
two handshake-reply bytes, never relays, and returns Ok. -/
theorem C8_bind_udp_silent_close
    (input s1 s2 : List Nat) (hands : ShakeHands) (proxy : Proxy) (co ro : Bool)
    (h1 : ShakeHands.fromStream input = (.ok hands, s1))
    (h2 : Proxy.fromStream s1 = (.ok proxy, s2))
    (h3 : proxy.command = Command.BIND ∨ proxy.command = Command.UDP) :
    serverConnect input co ro = ⟨[5, 0], false, .ok⟩ := by
  have hc : proxy.command ≠ Command.CONNECT := by
    rcases h3 with h | h <;> rw [h] <;> decide
  unfold serverConnect
  rw [h1]
  dsimp only
  rw [h2]
  dsimp only
  rw [if_neg hc]
  rfl

/-- C8 witness: a concrete BIND request (05 02 00 01 7F 00 00 01 00 50)
after the usual handshake. -/
theorem C8_witness :
    serverConnect ([5, 1, 0] ++ [5, 2, 0, 1, 127, 0, 0, 1, 0, 80]) true true
      = ⟨[5, 0], false, .ok⟩ :=
  C8_bind_udp_silent_close
    ([5, 1, 0] ++ [5, 2, 0, 1, 127, 0, 0, 1, 0, 80])
    [5, 2, 0, 1, 127, 0, 0, 1, 0, 80] [] ⟨[0]⟩
    ⟨.BIND, .Addr (.V4 ⟨⟨127, 0, 0, 1⟩, 80⟩)⟩ true true
    (by decide) (by decide) (Or.inl rfl)

/-- C9: no decoder validates the protocol version byte: the outcomes of
ShakeHands::from, Command::from and Reply::from are unchanged under any
replacement of the first (VER) byte of their message, and no decode
operation of the codec (those three, Address::from, or Proxy::from) ever
produces the VersionNo error. -/
theorem C9_no_version_validation :
    (∀ v w rest, (ShakeHands.fromStream (v :: rest)).1 = (ShakeHands.fromStream (w :: rest)).1)
    ∧ (∀ v w rest, (Command.fromStream (v :: rest)).1 = (Command.fromStream (w :: rest)).1)
    ∧ (∀ v w rest, (Reply.fromStream (v :: rest)).1 = (Reply.fromStream (w :: rest)).1)
    ∧ (∀ s b, (ShakeHands.fromStream s).1 ≠ .err (.VersionNo b))
    ∧ (∀ s b, (Command.fromStream s).1 ≠ .err (.VersionNo b))
    ∧ (∀ s b, (Reply.fromStream s).1 ≠ .err (.VersionNo b))
    ∧ (∀ s b, (Address.fromStream s).1 ≠ .err (.VersionNo b))
    ∧ (∀ s b, (Proxy.fromStream s).1 ≠ .err (.VersionNo b)) :=
  ⟨shakeHands_ver_indep, command_ver_indep, reply_ver_indep,
   shakeHands_no_version, command_no_version, reply_no_version,
   address_no_version, proxy_no_version⟩

/-- C10: the claim says domain-name decoding reads the m name bytes and
the 2 port bytes and returns a DomainName or AddressDomainNo, never
panicking.  It fails: on the stream 03 02 61 62 00 50 (ATYP=domain,
length 2, name "ab", port 80) the decoder reads zero name bytes into the
length-zero buffer and panics slicing domain[2..], leaving the four
bytes after the length prefix unread. -/
theorem C10_domain_decode_panics :
    Address.fromStream [0x03, 0x02, 0x61, 0x62, 0x00, 0x50]
      = (.panicked, [0x61, 0x62, 0x00, 0x50]) := by
  decide

end SS5
